import Mathlib

/-!
Verification of the positioning and transition engine of `gtk/gtkpopover.c`
(GtkPopover).  The C code is shallowly embedded: pure geometry helpers become
Lean functions over `ℤ`, the transition state machine becomes explicit state
passing over a `Popover` record, and the double-valued animation progress is
modelled over `ℚ`.
-/

/-- The GTK position enumeration `GtkPositionType`.  The numeric encoding in
the C headers is `GTK_POS_LEFT = 0`, `GTK_POS_RIGHT = 1`, `GTK_POS_TOP = 2`,
`GTK_POS_BOTTOM = 3`; `toCode` records that encoding. -/
inductive GtkPositionType where
  | left
  | right
  | top
  | bottom
deriving DecidableEq, Repr

/-- Numeric value of a `GtkPositionType` as in the C enum declaration. -/
def GtkPositionType.toCode : GtkPositionType → ℤ
  | .left => 0
  | .right => 1
  | .top => 2
  | .bottom => 3

/-- The `GtkPopoverConstraint` enumeration: `GTK_POPOVER_CONSTRAINT_NONE`
and `GTK_POPOVER_CONSTRAINT_WINDOW`. -/
inductive GtkPopoverConstraint where
  | none
  | window
deriving DecidableEq, Repr

/-- Widget text direction, `GTK_TEXT_DIR_LTR` / `GTK_TEXT_DIR_RTL`. -/
inductive GtkTextDirection where
  | ltr
  | rtl
deriving DecidableEq, Repr

/-- Structure `GdkRectangle`: integer position and size. -/
structure GdkRectangle where
  x : ℤ
  y : ℤ
  width : ℤ
  height : ℤ
deriving DecidableEq, Repr

/-- Structure `GtkBorder`: the four window shadow / css border widths. -/
structure GtkBorder where
  top : ℤ
  bottom : ℤ
  left : ℤ
  right : ℤ
deriving DecidableEq, Repr

/-- Structure `GtkRequisition`: the popover's required (preferred) size. -/
structure GtkRequisition where
  width : ℤ
  height : ℤ
deriving DecidableEq, Repr

/-- Constant `TAIL_GAP_WIDTH` from gtkpopover.c. -/
def TAIL_GAP_WIDTH : ℤ := 24

/-- Constant `TAIL_HEIGHT` from gtkpopover.c. -/
def TAIL_HEIGHT : ℤ := 12

/-- Constant `TRANSITION_DIFF` from gtkpopover.c (maximal animation offset,
in pixels). -/
def TRANSITION_DIFF : ℤ := 20

/-- Constant `TRANSITION_DURATION` from gtkpopover.c (microseconds). -/
def TRANSITION_DURATION : ℚ := 150 * 1000

/-- Constant `G_MAXINT`, the largest value of the C `gint` type. -/
def G_MAXINT : ℤ := 2 ^ 31 - 1

/-- Function `get_effective_position` from gtkpopover.c: under right-to-left text
direction, LEFT and RIGHT are swapped; otherwise the position is unchanged. -/
def get_effective_position (dir : GtkTextDirection) (pos : GtkPositionType) :
    GtkPositionType :=
  if dir = GtkTextDirection.rtl then
    if pos = GtkPositionType.left then GtkPositionType.right
    else if pos = GtkPositionType.right then GtkPositionType.left
    else pos
  else pos

/-- Function `opposite_position` from gtkpopover.c. -/
def opposite_position : GtkPositionType → GtkPositionType
  | .left => .right
  | .right => .left
  | .top => .bottom
  | .bottom => .top

/-- Macro `POS_IS_VERTICAL` from gtkpopover.c. -/
def POS_IS_VERTICAL (p : GtkPositionType) : Bool :=
  p = GtkPositionType.top ∨ p = GtkPositionType.bottom

/-- The inputs of the side-resolution part of `gtk_popover_update_position`:
the pointing-to rectangle already translated into window coordinates, the
popover's required size, the window allocation, its shadow insets, the
preferred side, the constraint mode, the widget text direction and whether
the display is a Wayland display (the compiled-in
`GDK_WINDOWING_WAYLAND` branch). -/
structure PositionConfig where
  rect : GdkRectangle
  req : GtkRequisition
  windowAlloc : GtkRequisition
  windowShadow : GtkBorder
  preferredPosition : GtkPositionType
  constraint : GtkPopoverConstraint
  dir : GtkTextDirection
  isWayland : Bool
deriving DecidableEq, Repr

/-- The `overshoot` array computed by `gtk_popover_update_position`: how many
pixels the popover would extend past the relevant window edge when placed on
the given side (negative means it fits with margin). -/
def overshoot (c : PositionConfig) : GtkPositionType → ℤ
  | .top => c.req.height - c.rect.y + c.windowShadow.top
  | .bottom => c.rect.y + c.rect.height + c.req.height - c.windowAlloc.height
      + c.windowShadow.bottom
  | .left => c.req.width - c.rect.x + c.windowShadow.left
  | .right => c.rect.x + c.rect.width + c.req.width - c.windowAlloc.width
      + c.windowShadow.right

/-- The `for (i = 0; i < 4; i++)` loop of `gtk_popover_update_position`:
starting from `best = G_MAXINT` and `pos = 0` (`GTK_POS_LEFT`), each side `i`
is visited in the numeric enum order LEFT, RIGHT, TOP, BOTTOM, comparing
`overshoot[get_effective_position (i)] < best`. -/
def update_position_loop (c : PositionConfig) : GtkPositionType :=
  (List.foldl
    (fun acc i =>
      let j := get_effective_position c.dir i
      if overshoot c j < acc.2 then (i, overshoot c j) else acc)
    ((GtkPositionType.left, G_MAXINT) : GtkPositionType × ℤ)
    [GtkPositionType.left, GtkPositionType.right,
     GtkPositionType.top, GtkPositionType.bottom]).1

/-- The side-resolution portion of `gtk_popover_update_position`
(gtkpopover.c lines 1107–1155): computes the resolved side
(`priv->final_position`) from the geometry, the preferred side, the text
direction, the constraint mode and the display backend. -/
def gtk_popover_update_position (c : PositionConfig) : GtkPositionType :=
  let pos := get_effective_position c.dir c.preferredPosition
  if c.isWayland ∧ c.constraint = GtkPopoverConstraint.none then
    c.preferredPosition
  else if overshoot c pos ≤ 0 then
    c.preferredPosition
  else if overshoot c (opposite_position pos) ≤ 0 then
    opposite_position c.preferredPosition
  else
    update_position_loop c

/-- First position, in the numeric enum order LEFT, RIGHT, TOP, BOTTOM, whose
effective overshoot is minimal among the four effective overshoots.  This is
the explicit form of `update_position_loop`. -/
def update_position_first_min (c : PositionConfig) : GtkPositionType :=
  let o := fun p => overshoot c (get_effective_position c.dir p)
  if o GtkPositionType.left ≤ o GtkPositionType.right ∧
      o GtkPositionType.left ≤ o GtkPositionType.top ∧
      o GtkPositionType.left ≤ o GtkPositionType.bottom then
    GtkPositionType.left
  else if o GtkPositionType.right ≤ o GtkPositionType.top ∧
      o GtkPositionType.right ≤ o GtkPositionType.bottom then
    GtkPositionType.right
  else if o GtkPositionType.top ≤ o GtkPositionType.bottom then
    GtkPositionType.top
  else
    GtkPositionType.bottom

/-- Modelled from the claim's words for C3: the first side in the
enumeration order TOP, BOTTOM, LEFT, RIGHT attaining the minimal overshoot
value (the tie-break order asserted by the specification). -/
def claimed_first_min_TBLR (c : PositionConfig) : GtkPositionType :=
  if overshoot c GtkPositionType.top ≤ overshoot c GtkPositionType.bottom ∧
      overshoot c GtkPositionType.top ≤ overshoot c GtkPositionType.left ∧
      overshoot c GtkPositionType.top ≤ overshoot c GtkPositionType.right then
    GtkPositionType.top
  else if overshoot c GtkPositionType.bottom ≤ overshoot c GtkPositionType.left ∧
      overshoot c GtkPositionType.bottom ≤ overshoot c GtkPositionType.right then
    GtkPositionType.bottom
  else if overshoot c GtkPositionType.left ≤ overshoot c GtkPositionType.right then
    GtkPositionType.left
  else
    GtkPositionType.right

/-- The GLib `CLAMP` macro: `x` is first compared with `high`, then with
`low` (so `high` wins when the interval is empty). -/
def cCLAMP (x low high : ℤ) : ℤ :=
  if x > high then high else if x < low then low else x

/-- Inputs of `gtk_popover_get_gap_coords`: the pointing-to rectangle
already translated into popover-local coordinates, the popover's allocated
size, the css border and border-radius of the contents node, the resolved
side (`priv->final_position`) and the widget text direction. -/
structure GapConfig where
  rect : GdkRectangle
  popoverWidth : ℤ
  popoverHeight : ℤ
  border : GtkBorder
  borderRadius : ℤ
  finalPosition : GtkPositionType
  dir : GtkTextDirection
deriving DecidableEq, Repr

/-- The three output points of `gtk_popover_get_gap_coords`: gap start
(`initial`), arrow tip and gap end (`final`). -/
structure GapCoords where
  initialX : ℤ
  initialY : ℤ
  tipX : ℤ
  tipY : ℤ
  finalX : ℤ
  finalY : ℤ
deriving DecidableEq, Repr

/-- Function `gtk_popover_get_gap_coords` from gtkpopover.c (lines 794–907), with
the coordinate translation of the pointing-to rectangle already performed
by the caller-provided `rect`.  `Int.tdiv` is the C `gint` division
(truncation toward zero). -/
def gtk_popover_get_gap_coords (g : GapConfig) : GapCoords :=
  let pos := get_effective_position g.dir g.finalPosition
  let base :=
    if pos = GtkPositionType.bottom ∨ pos = GtkPositionType.right then
      0 + TAIL_HEIGHT + g.border.top
    else if pos = GtkPositionType.top then
      g.popoverHeight - g.border.bottom - TAIL_HEIGHT
    else
      g.popoverWidth - g.border.right - TAIL_HEIGHT
  let tip :=
    if pos = GtkPositionType.bottom ∨ pos = GtkPositionType.right then 0
    else base + TAIL_HEIGHT
  if POS_IS_VERTICAL pos then
    let tip_pos := g.rect.x + Int.tdiv g.rect.width 2
    { initialX := cCLAMP (tip_pos - TAIL_GAP_WIDTH / 2) g.borderRadius
        (g.popoverWidth - TAIL_GAP_WIDTH - g.borderRadius),
      initialY := base,
      tipX := cCLAMP tip_pos 0 g.popoverWidth,
      tipY := tip,
      finalX := cCLAMP (tip_pos + TAIL_GAP_WIDTH / 2)
        (g.borderRadius + TAIL_GAP_WIDTH) (g.popoverWidth - g.borderRadius),
      finalY := base }
  else
    let tip_pos := g.rect.y + Int.tdiv g.rect.height 2
    { initialX := base,
      initialY := cCLAMP (tip_pos - TAIL_GAP_WIDTH / 2) g.borderRadius
        (g.popoverHeight - TAIL_GAP_WIDTH - g.borderRadius),
      tipX := tip,
      tipY := cCLAMP tip_pos 0 g.popoverHeight,
      finalX := base,
      finalY := cCLAMP (tip_pos + TAIL_GAP_WIDTH / 2)
        (g.borderRadius + TAIL_GAP_WIDTH) (g.popoverHeight - g.borderRadius) }

/-- The popover's size along the axis parallel to the pointed-at window
edge: the width for a vertical (TOP/BOTTOM) arrow, the height otherwise. -/
def parallelSize (g : GapConfig) : ℤ :=
  if POS_IS_VERTICAL (get_effective_position g.dir g.finalPosition) then
    g.popoverWidth
  else g.popoverHeight

/-- The anchor rectangle's integer midpoint along the parallel axis
(`rect.x + rect.width / 2` resp. `rect.y + rect.height / 2`, with C
truncating division). -/
def parallelMid (g : GapConfig) : ℤ :=
  if POS_IS_VERTICAL (get_effective_position g.dir g.finalPosition) then
    g.rect.x + Int.tdiv g.rect.width 2
  else g.rect.y + Int.tdiv g.rect.height 2

/-- The arrow tip coordinate along the parallel axis. -/
def parallelTip (g : GapConfig) : ℤ :=
  if POS_IS_VERTICAL (get_effective_position g.dir g.finalPosition) then
    (gtk_popover_get_gap_coords g).tipX
  else (gtk_popover_get_gap_coords g).tipY

/-- The gap start coordinate along the parallel axis. -/
def parallelInitial (g : GapConfig) : ℤ :=
  if POS_IS_VERTICAL (get_effective_position g.dir g.finalPosition) then
    (gtk_popover_get_gap_coords g).initialX
  else (gtk_popover_get_gap_coords g).initialY

/-- The gap end coordinate along the parallel axis. -/
def parallelFinal (g : GapConfig) : ℤ :=
  if POS_IS_VERTICAL (get_effective_position g.dir g.finalPosition) then
    (gtk_popover_get_gap_coords g).finalX
  else (gtk_popover_get_gap_coords g).finalY

/-- The pointing-to portion of `GtkPopoverPrivate`: the `pointing_to`
rectangle, the `has_pointing_to` flag, and the attached widget's own
allocation (`Option.none` when no relative-to widget is set). -/
structure PointingState where
  pointing_to : GdkRectangle
  has_pointing_to : Bool
  widgetAllocation : Option GdkRectangle
deriving DecidableEq, Repr

/-- Function `gtk_popover_update_pointing_to` from gtkpopover.c (lines 1999–2014):
a non-null rectangle is copied and sets the flag, a null pointer only
clears the flag. -/
def gtk_popover_update_pointing_to (s : PointingState)
    (r : Option GdkRectangle) : PointingState :=
  match r with
  | some rect => { s with pointing_to := rect, has_pointing_to := true }
  | Option.none => { s with has_pointing_to := false }

/-- Function `gtk_popover_get_pointing_to` from gtkpopover.c (lines 2119–2134):
returns the flag, filling the out rectangle with the stored rectangle when
the flag is set, with the attached widget's own allocation when a widget is
attached, and leaving the caller's value `rect0` untouched otherwise. -/
def gtk_popover_get_pointing_to (s : PointingState) (rect0 : GdkRectangle) :
    Bool × GdkRectangle :=
  if s.has_pointing_to then (true, s.pointing_to)
  else
    match s.widgetAllocation with
    | some alloc => (false, alloc)
    | Option.none => (false, rect0)

/-- The transition lifecycle states of gtkpopover.c (`STATE_SHOWING`,
`STATE_SHOWN`, `STATE_HIDING`, `STATE_HIDDEN`). -/
inductive PopoverState where
  | showing
  | shown
  | hiding
  | hidden
deriving DecidableEq, Repr

/-- Modelled from the spec: the progress tracker (`GtkProgressTracker`; its
source file gtkprogresstracker.c is not part of this repository snapshot).
Per spec §4.2 the per-frame update advances a monotonic progress tracker by
elapsed time; the tracker stores the transition duration, the timestamp of
the last frame it saw, and the accumulated elapsed time. -/
structure GtkProgressTracker where
  duration : ℚ
  lastTime : Option ℚ
  elapsed : ℚ
deriving DecidableEq, Repr

/-- Modelled from the spec: `gtk_progress_tracker_start` begins a new
transition of the given duration; no time has elapsed and no frame has been
seen yet. -/
def gtk_progress_tracker_start (duration : ℚ) : GtkProgressTracker :=
  { duration := duration, lastTime := Option.none, elapsed := 0 }

/-- Modelled from the spec: advancing the tracker by a frame records the
frame time and accumulates the elapsed time since the previous frame; the
first frame it sees only establishes the time baseline, and a frame time
moving backwards is ignored (the tracker is monotonic). -/
def gtk_progress_tracker_advance_frame (tr : GtkProgressTracker)
    (frameTime : ℚ) : GtkProgressTracker :=
  match tr.lastTime with
  | Option.none => { tr with lastTime := some frameTime }
  | some t0 =>
      if frameTime < t0 then tr
      else { tr with lastTime := some frameTime,
                     elapsed := tr.elapsed + (frameTime - t0) }

/-- Modelled from the spec: linear progress in [0, 1], the elapsed fraction
of the duration. -/
def gtk_progress_tracker_get_progress (tr : GtkProgressTracker) : ℚ :=
  min (tr.elapsed / tr.duration) 1

/-- The cubic ease-out curve `1 − (1 − p)³`. -/
def ease_out_cubic (p : ℚ) : ℚ := 1 - (1 - p) ^ 3

/-- Modelled from the spec: eased progress `t` in [0, 1] using a cubic
ease-out curve. -/
def gtk_progress_tracker_get_ease_out_cubic (tr : GtkProgressTracker) : ℚ :=
  ease_out_cubic (gtk_progress_tracker_get_progress tr)

/-- Modelled from the spec: the tracker reports `GTK_PROGRESS_STATE_AFTER`
exactly when the whole duration has elapsed (progress complete). -/
def gtk_progress_tracker_after (tr : GtkProgressTracker) : Bool :=
  tr.duration ≤ tr.elapsed

/-- Modelled from the spec: `gtk_progress_tracker_finish` skips the tracker
to the end of the transition. -/
def gtk_progress_tracker_finish (tr : GtkProgressTracker) :
    GtkProgressTracker :=
  { tr with elapsed := tr.duration }

/-- Conversion of a C `double` to a C `gint` as performed by the
assignments to `priv->transition_diff` (C truncation toward zero). -/
def truncToInt (q : ℚ) : ℤ := if 0 ≤ q then ⌊q⌋ else -⌊-q⌋

/-- The state-machine-relevant fields of a popover (`GtkPopoverPrivate`
together with the widget-level flags the code reads and writes).
`widgetVisible` is the widget visibility flag toggled by
`gtk_widget_show/hide`, `visible` is `priv->visible`, `tickActive` models
`priv->tick_id != 0`, `closedCount` counts emissions of the `closed`
signal, `grabActive` whether this popover holds the GTK grab, and
`inputRegionEmpty` whether the input shape was last combined with the empty
region.  `realized` and `animationsEnabled` are the externally controlled
widget/settings flags read by the code. -/
structure GtkPopover where
  state : PopoverState
  visible : Bool
  widgetVisible : Bool
  tickActive : Bool
  firstFrameSkipped : Bool
  tracker : GtkProgressTracker
  transitionDiff : ℤ
  opacity : ℚ
  closedCount : ℕ
  grabActive : Bool
  inputRegionEmpty : Bool
  modal : Bool
  preferredPosition : GtkPositionType
  constraint : GtkPopoverConstraint
  realized : Bool
  animationsEnabled : Bool
deriving DecidableEq, Repr

/-- Function `gtk_popover_init` from gtkpopover.c (lines 267–301): the fields it
assigns on a freshly constructed popover; all other fields are left as they
were (zero-initialized by the GObject machinery). -/
def gtk_popover_init (p : GtkPopover) : GtkPopover :=
  { p with modal := true, tickActive := false,
           state := PopoverState.hidden, visible := false,
           preferredPosition := GtkPositionType.top,
           constraint := GtkPopoverConstraint.window }

/-- Function `gtk_popover_apply_modality` reduced to the grab bookkeeping: acquiring
modality performs `gtk_grab_add` on the popover, releasing it performs
`gtk_grab_remove` (the focus save/restore side effects act on external
widgets and are not part of the popover state modelled here). -/
def gtk_popover_apply_modality (p : GtkPopover) (modal : Bool) : GtkPopover :=
  if modal then { p with grabActive := true } else { p with grabActive := false }

/-- Function `gtk_popover_hide_internal` from gtkpopover.c (lines 372–394): a no-op
when already invisible; otherwise clears `priv->visible`, emits `closed`,
releases modality when modal, and combines the window input shape with the
empty region when realized. -/
def gtk_popover_hide_internal (p : GtkPopover) : GtkPopover :=
  if ¬p.visible then p
  else
    let p := { p with visible := false, closedCount := p.closedCount + 1 }
    let p := if p.modal then gtk_popover_apply_modality p false else p
    if p.realized then { p with inputRegionEmpty := true } else p

/-- Function `gtk_popover_stop_transition` from gtkpopover.c (lines 682–692):
removes the tick callback when one is active. -/
def gtk_popover_stop_transition (p : GtkPopover) : GtkPopover :=
  if p.tickActive then { p with tickActive := false } else p

/-- Function `gtk_popover_start_transition` from gtkpopover.c (lines 694–707): a
no-op when a tick callback is already active; otherwise resets the
first-frame flag, starts the progress tracker for `TRANSITION_DURATION`
and installs the tick callback. -/
def gtk_popover_start_transition (p : GtkPopover) : GtkPopover :=
  if p.tickActive then p
  else { p with firstFrameSkipped := false,
                tracker := gtk_progress_tracker_start TRANSITION_DURATION,
                tickActive := true }

/-- Function `gtk_popover_show` (the widget-class `show` handler, lines 1484–1504):
sets `priv->visible`, makes the widget visible (parent class), applies
modality when modal, jumps the state to SHOWN and clears any input shape
restriction when realized. -/
def gtk_popover_show_handler (p : GtkPopover) : GtkPopover :=
  let p := { p with visible := true }
  let p := { p with widgetVisible := true }
  let p := if p.modal then gtk_popover_apply_modality p true else p
  let p := { p with state := PopoverState.shown }
  if p.realized then { p with inputRegionEmpty := false } else p

/-- Function `gtk_popover_hide` (the widget-class `hide` handler, lines 1506–1521):
runs `gtk_popover_hide_internal`, stops the transition, forces the state to
HIDDEN, resets the transition offset, finishes the tracker, restores full
opacity, and makes the widget invisible (parent class). -/
def gtk_popover_hide_handler (p : GtkPopover) : GtkPopover :=
  let p := gtk_popover_hide_internal p
  let p := gtk_popover_stop_transition p
  let p := { p with state := PopoverState.hidden, transitionDiff := 0,
                    tracker := gtk_progress_tracker_finish p.tracker,
                    opacity := 1 }
  { p with widgetVisible := false }

/-- Function `gtk_widget_show` on a popover: invokes the `show` class handler only
when the widget is not already visible. -/
def gtk_widget_show (p : GtkPopover) : GtkPopover :=
  if p.widgetVisible then p else gtk_popover_show_handler p

/-- Function `gtk_widget_hide` on a popover: invokes the `hide` class handler only
when the widget is currently visible. -/
def gtk_widget_hide (p : GtkPopover) : GtkPopover :=
  if p.widgetVisible then gtk_popover_hide_handler p else p

/-- Function `gtk_widget_set_visible` on a popover: dispatches to `gtk_widget_show`
or `gtk_widget_hide`. -/
def gtk_widget_set_visible (p : GtkPopover) (b : Bool) : GtkPopover :=
  if b then gtk_widget_show p else gtk_widget_hide p

/-- Function `gtk_popover_set_state` from gtkpopover.c (lines 709–734): when
animations are disabled or the widget is unrealized, SHOWING is downgraded
to SHOWN and HIDING to HIDDEN; the state is stored; a transient state
starts the transition, a settled state stops it and syncs widget
visibility with `state == STATE_SHOWN`. -/
def gtk_popover_set_state (p : GtkPopover) (s : PopoverState) : GtkPopover :=
  let s :=
    if ¬p.animationsEnabled ∨ ¬p.realized then
      if s = PopoverState.showing then PopoverState.shown
      else if s = PopoverState.hiding then PopoverState.hidden
      else s
    else s
  let p := { p with state := s }
  if s = PopoverState.showing ∨ s = PopoverState.hiding then
    gtk_popover_start_transition p
  else
    let p := gtk_popover_stop_transition p
    gtk_widget_set_visible p (s = PopoverState.shown)

/-- Function `gtk_popover_popup` from gtkpopover.c (lines 2448–2463): a no-op when
already SHOWING or SHOWN; otherwise shows the widget and, when animations
are enabled, enters SHOWING. -/
def gtk_popover_popup (p : GtkPopover) : GtkPopover :=
  if p.state = PopoverState.showing ∨ p.state = PopoverState.shown then p
  else
    let p := gtk_widget_show p
    if p.animationsEnabled then gtk_popover_set_state p PopoverState.showing
    else p

/-- Function `gtk_popover_popdown` from gtkpopover.c (lines 2473–2491): a no-op when
already HIDING or HIDDEN; otherwise hides the widget immediately when
animations are disabled, or enters HIDING, and then runs
`gtk_popover_hide_internal`. -/
def gtk_popover_popdown (p : GtkPopover) : GtkPopover :=
  if p.state = PopoverState.hiding ∨ p.state = PopoverState.hidden then p
  else
    let p :=
      if ¬p.animationsEnabled then gtk_widget_hide p
      else gtk_popover_set_state p PopoverState.hiding
    gtk_popover_hide_internal p

/-- Function `show_animate_cb` from gtkpopover.c (lines 630–680): the per-frame tick
callback.  The first frame only sets `first_frame_skipped`; later frames
advance the tracker.  In SHOWING the opacity is the eased progress `t` and
the offset is `TRANSITION_DIFF - TRANSITION_DIFF * t` truncated to `gint`;
in HIDING the opacity is `1 - t` and the offset is `-TRANSITION_DIFF * t`
truncated.  When the tracker reports AFTER, SHOWING advances to SHOWN
(cascading into HIDING when a hide arrived meanwhile), any other state
hides the widget, and the tick callback is removed. -/
def show_animate_cb (p : GtkPopover) (frameTime : ℚ) : GtkPopover :=
  let p :=
    if p.firstFrameSkipped then
      { p with tracker := gtk_progress_tracker_advance_frame p.tracker frameTime }
    else { p with firstFrameSkipped := true }
  let t := gtk_progress_tracker_get_ease_out_cubic p.tracker
  let p :=
    if p.state = PopoverState.showing then
      { p with
        transitionDiff := truncToInt ((TRANSITION_DIFF : ℚ) - TRANSITION_DIFF * t),
        opacity := t }
    else if p.state = PopoverState.hiding then
      { p with transitionDiff := truncToInt (-TRANSITION_DIFF * t),
               opacity := 1 - t }
    else p
  if gtk_progress_tracker_after p.tracker then
    let p :=
      if p.state = PopoverState.showing then
        let p := gtk_popover_set_state p PopoverState.shown
        if ¬p.visible then gtk_popover_set_state p PopoverState.hiding else p
      else gtk_widget_hide p
    { p with tickActive := false }
  else p

/-- One invocation of the frame clock: the tick callback runs only while it
is installed (`priv->tick_id != 0`). -/
def frame_tick (p : GtkPopover) (frameTime : ℚ) : GtkPopover :=
  if p.tickActive then show_animate_cb p frameTime else p

/-- Running a sequence of frame-clock ticks at the given frame times. -/
def run_ticks (p : GtkPopover) (ts : List ℚ) : GtkPopover :=
  ts.foldl frame_tick p

/-- A concrete popover mid-way through its SHOWING animation: the tracker
started at frame time 0 and the first frame was already skipped. -/
def animPopover : GtkPopover :=
  ⟨PopoverState.showing, true, true, true, true, ⟨150000, some 0, 0⟩,
    20, 0, 0, true, false, true, GtkPositionType.top,
    GtkPopoverConstraint.window, true, true⟩

/-- Invariant of a popover in the middle of its SHOWING animation. -/
def showingCore (c : ℕ) (p : GtkPopover) : Prop :=
  p.state = PopoverState.showing ∧ p.visible = true ∧
  p.widgetVisible = true ∧ p.tickActive = true ∧ p.closedCount = c ∧
  p.realized = true ∧ p.animationsEnabled = true

/-- Invariant of a popover whose SHOWING animation has completed. -/
def shownDone (c : ℕ) (p : GtkPopover) : Prop :=
  p.state = PopoverState.shown ∧ p.visible = true ∧
  p.widgetVisible = true ∧ p.tickActive = false ∧ p.closedCount = c ∧
  p.realized = true ∧ p.animationsEnabled = true ∧
  gtk_progress_tracker_after p.tracker = true

/-- Invariant holding from `popup` until `popdown`. -/
def phase1Inv (c : ℕ) (p : GtkPopover) : Prop :=
  showingCore c p ∨ shownDone c p

/-- Invariant of a popover in the middle of its HIDING animation. -/
def hidingCore (c : ℕ) (p : GtkPopover) : Prop :=
  p.state = PopoverState.hiding ∧ p.visible = false ∧
  p.widgetVisible = true ∧ p.tickActive = true ∧ p.closedCount = c ∧
  p.realized = true ∧ p.animationsEnabled = true ∧
  gtk_progress_tracker_after p.tracker = false

/-- Invariant of a popover that has settled into HIDDEN. -/
def hiddenDone (c : ℕ) (p : GtkPopover) : Prop :=
  p.state = PopoverState.hidden ∧ p.visible = false ∧
  p.widgetVisible = false ∧ p.tickActive = false ∧ p.closedCount = c

/-- Invariant holding from `popdown` onwards. -/
def phase2Inv (c : ℕ) (p : GtkPopover) : Prop :=
  hidingCore c p ∨ hiddenDone c p

/-- A freshly initialized, realized popover with animations enabled. -/
def roundTripPopover : GtkPopover :=
  ⟨PopoverState.hidden, false, false, false, false,
    ⟨150000, Option.none, 0⟩, 0, 1, 0, false, true, true,
    GtkPositionType.top, GtkPopoverConstraint.window, true, true⟩

/-- Claim C1: whenever the overshoot of the effective preferred side (the
preferred side with LEFT and RIGHT swapped under right-to-left text
direction) is ≤ 0, position recomputation resolves to the preferred side. -/
theorem update_position_preferred_fits (c : PositionConfig)
    (h : overshoot c (get_effective_position c.dir c.preferredPosition) ≤ 0) :
    gtk_popover_update_position c = c.preferredPosition := by
  unfold gtk_popover_update_position
  split
  · rfl
  · rw [if_pos h]

/-- Witness for C1 at a concrete configuration: anchor rectangle
(100, 100, 20, 20) inside an 800 × 600 window, popover size 200 × 100,
preferred side TOP, no shadow: the overshoot on TOP is 0 and the resolved
side is TOP. -/
theorem update_position_preferred_fits_witness :
    overshoot
        { rect := ⟨100, 100, 20, 20⟩, req := ⟨200, 100⟩,
          windowAlloc := ⟨800, 600⟩, windowShadow := ⟨0, 0, 0, 0⟩,
          preferredPosition := GtkPositionType.top,
          constraint := GtkPopoverConstraint.window,
          dir := GtkTextDirection.ltr, isWayland := false }
        (get_effective_position GtkTextDirection.ltr GtkPositionType.top) ≤ 0
      ∧ gtk_popover_update_position
        { rect := ⟨100, 100, 20, 20⟩, req := ⟨200, 100⟩,
          windowAlloc := ⟨800, 600⟩, windowShadow := ⟨0, 0, 0, 0⟩,
          preferredPosition := GtkPositionType.top,
          constraint := GtkPopoverConstraint.window,
          dir := GtkTextDirection.ltr, isWayland := false }
        = GtkPositionType.top :=
  ⟨by decide, update_position_preferred_fits _ (by decide)⟩

/-- Claim C2: when the effective preferred side overshoots (> 0) but its
opposite side fits (overshoot ≤ 0), position recomputation resolves to the
opposite of the preferred side.  The exception of spec step 6 (constraint
NONE on a Wayland display, treated by claim C4) is excluded by `hnone`. -/
theorem update_position_flips_to_opposite (c : PositionConfig)
    (hnone : ¬(c.isWayland = true ∧ c.constraint = GtkPopoverConstraint.none))
    (h1 : 0 < overshoot c (get_effective_position c.dir c.preferredPosition))
    (h2 : overshoot c
        (opposite_position (get_effective_position c.dir c.preferredPosition))
        ≤ 0) :
    gtk_popover_update_position c = opposite_position c.preferredPosition := by
  unfold gtk_popover_update_position
  split
  · rename_i hcond
    exact absurd ⟨by exact_mod_cast hcond.1, hcond.2⟩ hnone
  · rw [if_neg (by omega), if_pos h2]

/-- Witness for C2: anchor rectangle (5, 5, 20, 20) near the top edge of an
800 × 600 window, popover size 200 × 100, preferred TOP: overshoot(TOP) = 95
and overshoot(BOTTOM) = −475, so the resolved side flips to BOTTOM. -/
theorem update_position_flips_to_opposite_witness :
    gtk_popover_update_position
        { rect := ⟨5, 5, 20, 20⟩, req := ⟨200, 100⟩,
          windowAlloc := ⟨800, 600⟩, windowShadow := ⟨0, 0, 0, 0⟩,
          preferredPosition := GtkPositionType.top,
          constraint := GtkPopoverConstraint.window,
          dir := GtkTextDirection.ltr, isWayland := false }
      = GtkPositionType.bottom :=
  update_position_flips_to_opposite _ (by decide) (by decide) (by decide)

set_option maxHeartbeats 1000000 in
/-- The loop of `gtk_popover_update_position` picks the first position in the
enum order LEFT, RIGHT, TOP, BOTTOM whose effective overshoot is minimal,
provided every overshoot fits in a `gint`. -/
theorem update_position_loop_eq_first_min (c : PositionConfig)
    (bT : overshoot c GtkPositionType.top ≤ G_MAXINT)
    (bB : overshoot c GtkPositionType.bottom ≤ G_MAXINT)
    (bL : overshoot c GtkPositionType.left ≤ G_MAXINT)
    (bR : overshoot c GtkPositionType.right ≤ G_MAXINT) :
    update_position_loop c = update_position_first_min c := by
  obtain ⟨rect, req, wa, ws, pref, con, dir, wl⟩ := c
  cases dir <;>
    · simp only [update_position_loop, update_position_first_min,
        get_effective_position, List.foldl, reduceCtorEq, if_false, if_true,
        reduceIte] at *
      split_ifs at * <;> first | rfl | omega

set_option maxHeartbeats 1000000 in
/-- Claim C3, amended: when all four overshoots are positive (and each fits
in a `gint`), the resolved side is the first position in the numeric enum
order LEFT, RIGHT, TOP, BOTTOM whose effective overshoot is minimal, and the
effective overshoot of the resolved side equals the minimum of the four
overshoot values.  The constraint-NONE Wayland exception is excluded. -/
theorem update_position_all_overshoot_min (c : PositionConfig)
    (hnone : ¬(c.isWayland = true ∧ c.constraint = GtkPopoverConstraint.none))
    (pT : 0 < overshoot c GtkPositionType.top)
    (pB : 0 < overshoot c GtkPositionType.bottom)
    (pL : 0 < overshoot c GtkPositionType.left)
    (pR : 0 < overshoot c GtkPositionType.right)
    (bT : overshoot c GtkPositionType.top ≤ G_MAXINT)
    (bB : overshoot c GtkPositionType.bottom ≤ G_MAXINT)
    (bL : overshoot c GtkPositionType.left ≤ G_MAXINT)
    (bR : overshoot c GtkPositionType.right ≤ G_MAXINT) :
    gtk_popover_update_position c = update_position_first_min c ∧
    (overshoot c
        (get_effective_position c.dir (gtk_popover_update_position c)) ≤
        overshoot c GtkPositionType.top ∧
      overshoot c
        (get_effective_position c.dir (gtk_popover_update_position c)) ≤
        overshoot c GtkPositionType.bottom ∧
      overshoot c
        (get_effective_position c.dir (gtk_popover_update_position c)) ≤
        overshoot c GtkPositionType.left ∧
      overshoot c
        (get_effective_position c.dir (gtk_popover_update_position c)) ≤
        overshoot c GtkPositionType.right) := by
  have heff : 0 < overshoot c
        (get_effective_position c.dir c.preferredPosition) ∧
      0 < overshoot c (opposite_position
        (get_effective_position c.dir c.preferredPosition)) := by
    rcases c with ⟨rect, req, wa, ws, pref, con, dir, wl⟩
    cases dir <;> cases pref <;>
      simp_all [get_effective_position, opposite_position]
  have hmain : gtk_popover_update_position c = update_position_first_min c := by
    unfold gtk_popover_update_position
    split
    · rename_i h; exact absurd ⟨by exact_mod_cast h.1, h.2⟩ hnone
    · rw [if_neg (by omega), if_neg (by omega)]
      exact update_position_loop_eq_first_min c bT bB bL bR
  refine ⟨hmain, ?_⟩
  rw [hmain]
  rcases c with ⟨rect, req, wa, ws, pref, con, dir, wl⟩
  cases dir <;>
    · simp only [update_position_first_min, get_effective_position,
        reduceCtorEq, reduceIte]
      split_ifs <;>
        refine ⟨?_, ?_, ?_, ?_⟩ <;>
        first
          | omega
          | simp_all

/-- Witness for the amended C3: a 100 × 100 window with anchor rectangle
(45, 45, 10, 10) and popover size 50 × 50 makes all four overshoots equal
to 5; the loop resolves the tie to LEFT, the first minimal side in the
numeric enum order. -/
theorem update_position_all_overshoot_min_witness :
    0 < overshoot
        { rect := ⟨45, 45, 10, 10⟩, req := ⟨50, 50⟩,
          windowAlloc := ⟨100, 100⟩, windowShadow := ⟨0, 0, 0, 0⟩,
          preferredPosition := GtkPositionType.top,
          constraint := GtkPopoverConstraint.window,
          dir := GtkTextDirection.ltr, isWayland := false }
        GtkPositionType.top
      ∧ gtk_popover_update_position
        { rect := ⟨45, 45, 10, 10⟩, req := ⟨50, 50⟩,
          windowAlloc := ⟨100, 100⟩, windowShadow := ⟨0, 0, 0, 0⟩,
          preferredPosition := GtkPositionType.top,
          constraint := GtkPopoverConstraint.window,
          dir := GtkTextDirection.ltr, isWayland := false }
        = update_position_first_min
        { rect := ⟨45, 45, 10, 10⟩, req := ⟨50, 50⟩,
          windowAlloc := ⟨100, 100⟩, windowShadow := ⟨0, 0, 0, 0⟩,
          preferredPosition := GtkPositionType.top,
          constraint := GtkPopoverConstraint.window,
          dir := GtkTextDirection.ltr, isWayland := false } :=
  ⟨by decide,
    (update_position_all_overshoot_min _ (by decide) (by decide) (by decide)
      (by decide) (by decide) (by decide) (by decide) (by decide)
      (by decide)).1⟩

/-- Counterexample to C3 as stated: with all four overshoots equal to 5
(all positive), the tie-break order TOP, BOTTOM, LEFT, RIGHT asserted by
the claim predicts TOP, but `gtk_popover_update_position` resolves to LEFT
(the loop iterates the numeric enum order LEFT, RIGHT, TOP, BOTTOM). -/
theorem update_position_tie_order_cex :
    (0 < overshoot
        { rect := ⟨45, 45, 10, 10⟩, req := ⟨50, 50⟩,
          windowAlloc := ⟨100, 100⟩, windowShadow := ⟨0, 0, 0, 0⟩,
          preferredPosition := GtkPositionType.top,
          constraint := GtkPopoverConstraint.window,
          dir := GtkTextDirection.ltr, isWayland := false }
        GtkPositionType.top ∧
      0 < overshoot
        { rect := ⟨45, 45, 10, 10⟩, req := ⟨50, 50⟩,
          windowAlloc := ⟨100, 100⟩, windowShadow := ⟨0, 0, 0, 0⟩,
          preferredPosition := GtkPositionType.top,
          constraint := GtkPopoverConstraint.window,
          dir := GtkTextDirection.ltr, isWayland := false }
        GtkPositionType.bottom ∧
      0 < overshoot
        { rect := ⟨45, 45, 10, 10⟩, req := ⟨50, 50⟩,
          windowAlloc := ⟨100, 100⟩, windowShadow := ⟨0, 0, 0, 0⟩,
          preferredPosition := GtkPositionType.top,
          constraint := GtkPopoverConstraint.window,
          dir := GtkTextDirection.ltr, isWayland := false }
        GtkPositionType.left ∧
      0 < overshoot
        { rect := ⟨45, 45, 10, 10⟩, req := ⟨50, 50⟩,
          windowAlloc := ⟨100, 100⟩, windowShadow := ⟨0, 0, 0, 0⟩,
          preferredPosition := GtkPositionType.top,
          constraint := GtkPopoverConstraint.window,
          dir := GtkTextDirection.ltr, isWayland := false }
        GtkPositionType.right) ∧
    claimed_first_min_TBLR
        { rect := ⟨45, 45, 10, 10⟩, req := ⟨50, 50⟩,
          windowAlloc := ⟨100, 100⟩, windowShadow := ⟨0, 0, 0, 0⟩,
          preferredPosition := GtkPositionType.top,
          constraint := GtkPopoverConstraint.window,
          dir := GtkTextDirection.ltr, isWayland := false }
      = GtkPositionType.top ∧
    gtk_popover_update_position
        { rect := ⟨45, 45, 10, 10⟩, req := ⟨50, 50⟩,
          windowAlloc := ⟨100, 100⟩, windowShadow := ⟨0, 0, 0, 0⟩,
          preferredPosition := GtkPositionType.top,
          constraint := GtkPopoverConstraint.window,
          dir := GtkTextDirection.ltr, isWayland := false }
      = GtkPositionType.left := by
  decide

/-- Claim C4, amended: when the placement constraint is NONE and the display
is a Wayland display (the backend that supports unconstrained placement),
side resolution skips the overshoot tests and the resolved side equals the
preferred side. -/
theorem update_position_constraint_none_wayland (c : PositionConfig)
    (hw : c.isWayland = true)
    (hc : c.constraint = GtkPopoverConstraint.none) :
    gtk_popover_update_position c = c.preferredPosition := by
  unfold gtk_popover_update_position
  split
  · rfl
  · rename_i h
    exact absurd ⟨by simp [hw], hc⟩ h

/-- Witness for the amended C4: constraint NONE on a Wayland display keeps
the preferred side TOP even though the overshoot on TOP is 95 > 0. -/
theorem update_position_constraint_none_wayland_witness :
    ({ rect := ⟨5, 5, 20, 20⟩, req := ⟨200, 100⟩,
        windowAlloc := ⟨800, 600⟩, windowShadow := ⟨0, 0, 0, 0⟩,
        preferredPosition := GtkPositionType.top,
        constraint := GtkPopoverConstraint.none,
        dir := GtkTextDirection.ltr, isWayland := true } :
        PositionConfig).isWayland = true
      ∧ gtk_popover_update_position
        { rect := ⟨5, 5, 20, 20⟩, req := ⟨200, 100⟩,
          windowAlloc := ⟨800, 600⟩, windowShadow := ⟨0, 0, 0, 0⟩,
          preferredPosition := GtkPositionType.top,
          constraint := GtkPopoverConstraint.none,
          dir := GtkTextDirection.ltr, isWayland := true }
        = GtkPositionType.top :=
  ⟨rfl, update_position_constraint_none_wayland _ rfl rfl⟩

/-- Counterexample to C4 as stated: for a non-Wayland display, constraint
NONE does not skip the overshoot tests — with the anchor near the top edge
and preferred side TOP the resolved side is BOTTOM, not the preferred
side. -/
theorem update_position_constraint_none_cex :
    ({ rect := ⟨5, 5, 20, 20⟩, req := ⟨200, 100⟩,
        windowAlloc := ⟨800, 600⟩, windowShadow := ⟨0, 0, 0, 0⟩,
        preferredPosition := GtkPositionType.top,
        constraint := GtkPopoverConstraint.none,
        dir := GtkTextDirection.ltr, isWayland := false } :
        PositionConfig).constraint = GtkPopoverConstraint.none
      ∧ gtk_popover_update_position
        { rect := ⟨5, 5, 20, 20⟩, req := ⟨200, 100⟩,
          windowAlloc := ⟨800, 600⟩, windowShadow := ⟨0, 0, 0, 0⟩,
          preferredPosition := GtkPositionType.top,
          constraint := GtkPopoverConstraint.none,
          dir := GtkTextDirection.ltr, isWayland := false }
        = GtkPositionType.bottom
      ∧ GtkPositionType.bottom ≠ GtkPositionType.top := by
  decide

/-- Claim C8: for every resolved side and anchor rectangle, the arrow tip
coordinate along the parallel axis is the anchor midpoint clamped into
[0, popover size on that axis], and the two gap endpoints are the midpoint
minus/plus half the 24px gap width, clamped into
[border_radius, size − gap − border_radius] and
[border_radius + gap, size − border_radius] respectively. -/
theorem gap_coords_clamped (g : GapConfig) :
    parallelTip g = cCLAMP (parallelMid g) 0 (parallelSize g) ∧
    parallelInitial g =
      cCLAMP (parallelMid g - TAIL_GAP_WIDTH / 2) g.borderRadius
        (parallelSize g - TAIL_GAP_WIDTH - g.borderRadius) ∧
    parallelFinal g =
      cCLAMP (parallelMid g + TAIL_GAP_WIDTH / 2)
        (g.borderRadius + TAIL_GAP_WIDTH) (parallelSize g - g.borderRadius) := by
  obtain ⟨rect, w, h, border, br, fpos, dir⟩ := g
  cases dir <;> cases fpos <;>
    exact ⟨rfl, rfl, rfl⟩

/-- Claim C9: a set-then-get round-trip returns true and exactly the
rectangle last passed to the setter (the public setter
`gtk_popover_set_pointing_to` always passes a non-null rectangle); when no
rectangle was ever set, the query returns false and the anchor widget's
full allocation. -/
theorem pointing_to_round_trip (s : PointingState)
    (r rect0 alloc : GdkRectangle)
    (h1 : s.has_pointing_to = false)
    (h2 : s.widgetAllocation = some alloc) :
    gtk_popover_get_pointing_to (gtk_popover_update_pointing_to s (some r))
        rect0 = (true, r) ∧
    gtk_popover_get_pointing_to s rect0 = (false, alloc) := by
  constructor
  · rfl
  · simp [gtk_popover_get_pointing_to, h1, h2]

/-- Witness for C9 at concrete rectangles. -/
theorem pointing_to_round_trip_witness :
    gtk_popover_get_pointing_to
        (gtk_popover_update_pointing_to
          ⟨⟨0, 0, 0, 0⟩, false, some ⟨1, 2, 3, 4⟩⟩ (some ⟨5, 6, 7, 8⟩))
        ⟨0, 0, 0, 0⟩ = (true, ⟨5, 6, 7, 8⟩) ∧
    gtk_popover_get_pointing_to ⟨⟨0, 0, 0, 0⟩, false, some ⟨1, 2, 3, 4⟩⟩
        ⟨0, 0, 0, 0⟩ = (false, ⟨1, 2, 3, 4⟩) :=
  pointing_to_round_trip ⟨⟨0, 0, 0, 0⟩, false, some ⟨1, 2, 3, 4⟩⟩
    ⟨5, 6, 7, 8⟩ ⟨0, 0, 0, 0⟩ ⟨1, 2, 3, 4⟩ rfl rfl

/-- Claim C10: a newly created popover starts modal, preferring TOP,
constrained to the window, in state HIDDEN, with no tick callback
installed, and not visible. -/
theorem popover_init_defaults (p : GtkPopover) :
    (gtk_popover_init p).modal = true ∧
    (gtk_popover_init p).preferredPosition = GtkPositionType.top ∧
    (gtk_popover_init p).constraint = GtkPopoverConstraint.window ∧
    (gtk_popover_init p).state = PopoverState.hidden ∧
    (gtk_popover_init p).tickActive = false ∧
    (gtk_popover_init p).visible = false :=
  ⟨rfl, rfl, rfl, rfl, rfl, rfl⟩

/-- Claim C7: `popdown` is a no-op in HIDING/HIDDEN; from a visible
SHOWING/SHOWN popover it enters HIDING (HIDDEN immediately when animations
are disabled) and immediately emits `closed`, releases the grab when
modal, and clears the input region, regardless of the animation. -/
theorem popdown_contract (p q : GtkPopover)
    (hq : q.state = PopoverState.hiding ∨ q.state = PopoverState.hidden)
    (hp : p.state = PopoverState.showing ∨ p.state = PopoverState.shown)
    (hv : p.visible = true) (hw : p.widgetVisible = true)
    (hr : p.realized = true) :
    gtk_popover_popdown q = q ∧
    (gtk_popover_popdown p).state =
      (if p.animationsEnabled then PopoverState.hiding
        else PopoverState.hidden) ∧
    (gtk_popover_popdown p).closedCount = p.closedCount + 1 ∧
    (gtk_popover_popdown p).visible = false ∧
    (p.modal = true → (gtk_popover_popdown p).grabActive = false) ∧
    (gtk_popover_popdown p).inputRegionEmpty = true := by
  have hnoop : gtk_popover_popdown q = q := by
    rcases hq with h | h <;> simp [gtk_popover_popdown, h]
  refine ⟨hnoop, ?_⟩
  rcases hp with h | h <;>
    cases hanim : p.animationsEnabled <;>
    cases hmodal : p.modal <;>
    cases htick : p.tickActive <;>
    simp [gtk_popover_popdown, gtk_popover_set_state,
      gtk_popover_start_transition, gtk_popover_stop_transition,
      gtk_widget_set_visible, gtk_widget_show, gtk_widget_hide,
      gtk_popover_show_handler, gtk_popover_hide_handler,
      gtk_popover_hide_internal, gtk_popover_apply_modality,
      gtk_progress_tracker_finish, h, hv, hw, hr, hanim, hmodal, htick]

/-- Witness for C7: a concrete SHOWN modal popover with animations enabled
pops down into HIDING with `closed` emitted once, the grab released and the
input region cleared; a concrete HIDDEN popover is untouched. -/
theorem popdown_contract_witness :
    gtk_popover_popdown
        ⟨PopoverState.hidden, false, false, false, false,
          ⟨150000, Option.none, 0⟩, 0, 1, 0, false, true, true,
          GtkPositionType.top, GtkPopoverConstraint.window, true, true⟩ =
      ⟨PopoverState.hidden, false, false, false, false,
        ⟨150000, Option.none, 0⟩, 0, 1, 0, false, true, true,
        GtkPositionType.top, GtkPopoverConstraint.window, true, true⟩ ∧
    (gtk_popover_popdown
        ⟨PopoverState.shown, true, true, false, false,
          ⟨150000, Option.none, 0⟩, 0, 1, 0, true, false, true,
          GtkPositionType.top, GtkPopoverConstraint.window, true, true⟩).state =
      (if (⟨PopoverState.shown, true, true, false, false,
          ⟨150000, Option.none, 0⟩, 0, 1, 0, true, false, true,
          GtkPositionType.top, GtkPopoverConstraint.window, true, true⟩ :
          GtkPopover).animationsEnabled then PopoverState.hiding
        else PopoverState.hidden) ∧
    (gtk_popover_popdown
        ⟨PopoverState.shown, true, true, false, false,
          ⟨150000, Option.none, 0⟩, 0, 1, 0, true, false, true,
          GtkPositionType.top, GtkPopoverConstraint.window, true, true⟩).closedCount =
      0 + 1 ∧
    (gtk_popover_popdown
        ⟨PopoverState.shown, true, true, false, false,
          ⟨150000, Option.none, 0⟩, 0, 1, 0, true, false, true,
          GtkPositionType.top, GtkPopoverConstraint.window, true, true⟩).visible =
      false ∧
    ((⟨PopoverState.shown, true, true, false, false,
          ⟨150000, Option.none, 0⟩, 0, 1, 0, true, false, true,
          GtkPositionType.top, GtkPopoverConstraint.window, true, true⟩ :
          GtkPopover).modal = true →
      (gtk_popover_popdown
        ⟨PopoverState.shown, true, true, false, false,
          ⟨150000, Option.none, 0⟩, 0, 1, 0, true, false, true,
          GtkPositionType.top, GtkPopoverConstraint.window, true, true⟩).grabActive =
        false) ∧
    (gtk_popover_popdown
        ⟨PopoverState.shown, true, true, false, false,
          ⟨150000, Option.none, 0⟩, 0, 1, 0, true, false, true,
          GtkPositionType.top, GtkPopoverConstraint.window, true, true⟩).inputRegionEmpty =
      true :=
  popdown_contract
    ⟨PopoverState.shown, true, true, false, false,
      ⟨150000, Option.none, 0⟩, 0, 1, 0, true, false, true,
      GtkPositionType.top, GtkPopoverConstraint.window, true, true⟩
    ⟨PopoverState.hidden, false, false, false, false,
      ⟨150000, Option.none, 0⟩, 0, 1, 0, false, true, true,
      GtkPositionType.top, GtkPopoverConstraint.window, true, true⟩
    (Or.inr rfl) (Or.inr rfl) rfl rfl rfl

theorem truncToInt_neg (q : ℚ) : truncToInt (-q) = -truncToInt q := by
  unfold truncToInt
  rcases lt_trichotomy q 0 with h | h | h
  · rw [if_pos (by linarith), if_neg (not_le.mpr h), neg_neg]
  · subst h
    norm_num
  · rw [if_neg (by simpa using h), if_pos (le_of_lt h), neg_neg]

theorem ease_out_cubic_mono {a b : ℚ} (h : a ≤ b) :
    ease_out_cubic a ≤ ease_out_cubic b := by
  have h3 : (1 - b) ^ 3 ≤ (1 - a) ^ 3 := by
    nlinarith [sq_nonneg ((1 - a) + (1 - b)), sq_nonneg (1 - a),
      sq_nonneg (1 - b)]
  unfold ease_out_cubic
  linarith

theorem advance_frame_duration (tr : GtkProgressTracker) (now : ℚ) :
    (gtk_progress_tracker_advance_frame tr now).duration = tr.duration := by
  rcases h : tr.lastTime with _ | t0 <;>
    simp only [gtk_progress_tracker_advance_frame, h]
  split <;> rfl

theorem advance_frame_elapsed_le (tr : GtkProgressTracker) (now : ℚ) :
    tr.elapsed ≤ (gtk_progress_tracker_advance_frame tr now).elapsed := by
  rcases h : tr.lastTime with _ | t0 <;>
    simp only [gtk_progress_tracker_advance_frame, h]
  · exact le_refl _
  · split
    · exact le_refl _
    · rename_i hge
      simp only
      linarith [not_lt.mp hge]

theorem tracker_ease_le_advance (tr : GtkProgressTracker) (now : ℚ)
    (hd : 0 < tr.duration) :
    gtk_progress_tracker_get_ease_out_cubic tr ≤
      gtk_progress_tracker_get_ease_out_cubic
        (gtk_progress_tracker_advance_frame tr now) := by
  unfold gtk_progress_tracker_get_ease_out_cubic
    gtk_progress_tracker_get_progress
  rw [advance_frame_duration]
  apply ease_out_cubic_mono
  exact min_le_min
    ((div_le_div_iff_of_pos_right hd).mpr (advance_frame_elapsed_le tr now))
    le_rfl

theorem tracker_after_ease (tr : GtkProgressTracker) (hd : 0 < tr.duration)
    (h : gtk_progress_tracker_after tr = true) :
    gtk_progress_tracker_get_ease_out_cubic tr = 1 := by
  have he : tr.duration ≤ tr.elapsed := by
    simpa [gtk_progress_tracker_after] using h
  unfold gtk_progress_tracker_get_ease_out_cubic
    gtk_progress_tracker_get_progress
  rw [min_eq_right ((one_le_div hd).mpr he)]
  unfold ease_out_cubic
  norm_num

theorem show_animate_tracker (p : GtkPopover) (now : ℚ)
    (hst : p.state = PopoverState.showing) (hv : p.visible = true) :
    (show_animate_cb p now).tracker =
      (if p.firstFrameSkipped then
        gtk_progress_tracker_advance_frame p.tracker now
      else p.tracker) := by
  cases hff : p.firstFrameSkipped <;>
    cases htick : p.tickActive <;>
    cases hwv : p.widgetVisible <;>
    simp [show_animate_cb, gtk_popover_set_state, gtk_widget_set_visible,
      gtk_widget_show, gtk_widget_hide, gtk_popover_show_handler,
      gtk_popover_hide_handler, gtk_popover_hide_internal,
      gtk_popover_apply_modality, gtk_popover_start_transition,
      gtk_popover_stop_transition, apply_ite, hst, hv, hff, htick, hwv]

theorem show_animate_state_shown (p : GtkPopover) (now : ℚ)
    (hst : p.state = PopoverState.showing) (hv : p.visible = true) :
    ((show_animate_cb p now).state = PopoverState.shown ↔
      gtk_progress_tracker_after (show_animate_cb p now).tracker = true) := by
  rw [show_animate_tracker p now hst hv]
  cases hff : p.firstFrameSkipped <;>
    cases htick : p.tickActive <;>
    cases hwv : p.widgetVisible <;>
    simp [show_animate_cb, gtk_popover_set_state, gtk_widget_set_visible,
      gtk_widget_show, gtk_widget_hide, gtk_popover_show_handler,
      gtk_popover_hide_handler, gtk_popover_hide_internal,
      gtk_popover_apply_modality, gtk_popover_start_transition,
      gtk_popover_stop_transition, apply_ite, hst, hv, hff, htick, hwv]

theorem show_animate_showing_eqs (p : GtkPopover) (now : ℚ)
    (hst : p.state = PopoverState.showing) (hv : p.visible = true) :
    (show_animate_cb p now).opacity =
      gtk_progress_tracker_get_ease_out_cubic
        (if p.firstFrameSkipped then
          gtk_progress_tracker_advance_frame p.tracker now
        else p.tracker) ∧
    (show_animate_cb p now).transitionDiff =
      truncToInt ((TRANSITION_DIFF : ℚ) -
        TRANSITION_DIFF * gtk_progress_tracker_get_ease_out_cubic
          (if p.firstFrameSkipped then
            gtk_progress_tracker_advance_frame p.tracker now
          else p.tracker)) := by
  cases hff : p.firstFrameSkipped <;>
    cases htick : p.tickActive <;>
    cases hwv : p.widgetVisible <;>
    simp [show_animate_cb, gtk_popover_set_state, gtk_widget_set_visible,
      gtk_widget_show, gtk_widget_hide, gtk_popover_show_handler,
      gtk_popover_hide_handler, gtk_popover_hide_internal,
      gtk_popover_apply_modality, gtk_popover_start_transition,
      gtk_popover_stop_transition, apply_ite, hst, hv, hff, htick, hwv]

theorem show_animate_hiding_eqs (p : GtkPopover) (now : ℚ)
    (hst : p.state = PopoverState.hiding)
    (hna : gtk_progress_tracker_after
      (if p.firstFrameSkipped then
        gtk_progress_tracker_advance_frame p.tracker now
      else p.tracker) = false) :
    (show_animate_cb p now).opacity =
      1 - gtk_progress_tracker_get_ease_out_cubic
        (if p.firstFrameSkipped then
          gtk_progress_tracker_advance_frame p.tracker now
        else p.tracker) ∧
    (show_animate_cb p now).transitionDiff =
      -truncToInt ((TRANSITION_DIFF : ℚ) *
        gtk_progress_tracker_get_ease_out_cubic
          (if p.firstFrameSkipped then
            gtk_progress_tracker_advance_frame p.tracker now
          else p.tracker)) ∧
    (show_animate_cb p now).tracker =
      (if p.firstFrameSkipped then
        gtk_progress_tracker_advance_frame p.tracker now
      else p.tracker) := by
  cases hff : p.firstFrameSkipped <;>
    simp_all [show_animate_cb, hst, hff, neg_mul, truncToInt_neg]

theorem show_animate_first_frame (p : GtkPopover) (now : ℚ)
    (hff : p.firstFrameSkipped = false)
    (hna : gtk_progress_tracker_after p.tracker = false) :
    (show_animate_cb p now).tracker = p.tracker := by
  simp only [show_animate_cb, hff, Bool.false_eq_true, if_false, reduceIte]
  split_ifs <;> simp_all

theorem show_animate_visible (p : GtkPopover) (now : ℚ)
    (hst : p.state = PopoverState.showing) (hv : p.visible = true) :
    (show_animate_cb p now).visible = true := by
  cases hff : p.firstFrameSkipped <;>
    cases htick : p.tickActive <;>
    cases hwv : p.widgetVisible <;>
    simp [show_animate_cb, gtk_popover_set_state, gtk_widget_set_visible,
      gtk_widget_show, gtk_widget_hide, gtk_popover_show_handler,
      gtk_popover_hide_handler, gtk_popover_hide_internal,
      gtk_popover_apply_modality, gtk_popover_start_transition,
      gtk_popover_stop_transition, apply_ite, hst, hv, hff, htick, hwv]

theorem show_animate_ffs (p : GtkPopover) (now : ℚ)
    (hst : p.state = PopoverState.showing) (hv : p.visible = true) :
    (show_animate_cb p now).firstFrameSkipped = true := by
  cases hff : p.firstFrameSkipped <;>
    cases htick : p.tickActive <;>
    cases hwv : p.widgetVisible <;>
    simp [show_animate_cb, gtk_popover_set_state, gtk_widget_set_visible,
      gtk_widget_show, gtk_widget_hide, gtk_popover_show_handler,
      gtk_popover_hide_handler, gtk_popover_hide_internal,
      gtk_popover_apply_modality, gtk_popover_start_transition,
      gtk_popover_stop_transition, apply_ite, hst, hv, hff, htick, hwv]

theorem show_animate_opacity_mono (p : GtkPopover) (now now2 : ℚ)
    (hst : p.state = PopoverState.showing) (hv : p.visible = true)
    (hdur : 0 < p.tracker.duration)
    (hq : (show_animate_cb p now).state = PopoverState.showing) :
    (show_animate_cb p now).opacity ≤
      (show_animate_cb (show_animate_cb p now) now2).opacity := by
  have hqv := show_animate_visible p now hst hv
  have hqf := show_animate_ffs p now hst hv
  have hqt := show_animate_tracker p now hst hv
  have h1 := (show_animate_showing_eqs p now hst hv).1
  have h2 := (show_animate_showing_eqs (show_animate_cb p now) now2 hq hqv).1
  have hd1 : 0 < (if p.firstFrameSkipped then
      gtk_progress_tracker_advance_frame p.tracker now
    else p.tracker).duration := by
    split
    · rw [advance_frame_duration]
      exact hdur
    · exact hdur
  rw [h1, h2, hqf, hqt]
  simp only [if_true]
  rw [← hqt, show_animate_tracker p now hst hv]
  exact tracker_ease_le_advance _ now2 hd1

/-- Claim C5, amended: on a frame tick the very first frame after a
transition starts advances no progress; on later frames, with t the cubic
ease-out progress of the advanced tracker, SHOWING sets opacity to t and
the offset to 20 × (1 − t) truncated toward zero to a gint, and HIDING
(before completion) sets opacity to 1 − t and the offset to minus the
truncation of 20 × t; the eased progress and the opacity are non-decreasing
across successive SHOWING ticks, the state advances to SHOWN exactly when
the tracker reports completion, and at completion t equals exactly 1. -/
theorem show_animate_contract (p : GtkPopover) (now now2 : ℚ)
    (hdur : 0 < p.tracker.duration) :
    (p.firstFrameSkipped = false →
      gtk_progress_tracker_after p.tracker = false →
      (show_animate_cb p now).tracker = p.tracker) ∧
    (p.state = PopoverState.showing → p.visible = true →
      (show_animate_cb p now).opacity =
        gtk_progress_tracker_get_ease_out_cubic
          (show_animate_cb p now).tracker ∧
      (show_animate_cb p now).transitionDiff =
        truncToInt ((TRANSITION_DIFF : ℚ) *
          (1 - gtk_progress_tracker_get_ease_out_cubic
            (show_animate_cb p now).tracker))) ∧
    (p.state = PopoverState.hiding →
      gtk_progress_tracker_after
        (if p.firstFrameSkipped then
          gtk_progress_tracker_advance_frame p.tracker now
        else p.tracker) = false →
      (show_animate_cb p now).opacity =
        1 - gtk_progress_tracker_get_ease_out_cubic
          (show_animate_cb p now).tracker ∧
      (show_animate_cb p now).transitionDiff =
        -truncToInt ((TRANSITION_DIFF : ℚ) *
          gtk_progress_tracker_get_ease_out_cubic
            (show_animate_cb p now).tracker)) ∧
    (p.state = PopoverState.showing → p.visible = true →
      gtk_progress_tracker_get_ease_out_cubic p.tracker ≤
        gtk_progress_tracker_get_ease_out_cubic
          (show_animate_cb p now).tracker) ∧
    (p.state = PopoverState.showing → p.visible = true →
      (show_animate_cb p now).state = PopoverState.showing →
      (show_animate_cb p now).opacity ≤
        (show_animate_cb (show_animate_cb p now) now2).opacity) ∧
    (p.state = PopoverState.showing → p.visible = true →
      ((show_animate_cb p now).state = PopoverState.shown ↔
        gtk_progress_tracker_after (show_animate_cb p now).tracker = true)) ∧
    (gtk_progress_tracker_after (show_animate_cb p now).tracker = true →
      0 < (show_animate_cb p now).tracker.duration →
      gtk_progress_tracker_get_ease_out_cubic
        (show_animate_cb p now).tracker = 1) := by
  refine ⟨fun hff hna => show_animate_first_frame p now hff hna,
    fun h1 h2 => ?_, fun h1 hna => ?_, fun h1 h2 => ?_,
    fun h1 h2 hq => show_animate_opacity_mono p now now2 h1 h2 hdur hq,
    fun h1 h2 => show_animate_state_shown p now h1 h2,
    fun h ha => tracker_after_ease _ ha h⟩
  · have ht := show_animate_tracker p now h1 h2
    have he := show_animate_showing_eqs p now h1 h2
    rw [ht, mul_one_sub]
    exact he
  · have hh := show_animate_hiding_eqs p now h1 hna
    rw [hh.2.2]
    exact ⟨hh.1, hh.2.1⟩
  · rw [show_animate_tracker p now h1 h2]
    split
    · exact tracker_ease_le_advance p.tracker now hdur
    · exact le_refl _

/-- Counterexample to C5 as stated: at frame time 75000 the eased progress
is t = 7/8, so 20 × (1 − t) = 5/2, but the stored offset is the gint 2 —
the offset equals the truncation of 20 × (1 − t), not the value itself. -/
theorem show_animate_offset_cex :
    ((show_animate_cb animPopover 75000).transitionDiff : ℚ) ≠
      (TRANSITION_DIFF : ℚ) *
        (1 - gtk_progress_tracker_get_ease_out_cubic
          (show_animate_cb animPopover 75000).tracker) := by
  have ht := show_animate_tracker animPopover 75000 rfl rfl
  have he := (show_animate_showing_eqs animPopover 75000 rfl rfl).2
  rw [he, ht]
  norm_num [animPopover, gtk_progress_tracker_advance_frame,
    gtk_progress_tracker_get_ease_out_cubic,
    gtk_progress_tracker_get_progress, ease_out_cubic, min_def, truncToInt,
    TRANSITION_DIFF]

/-- Witness for the amended C5 at the concrete mid-animation popover and
frame times 75000 and 150000. -/
theorem show_animate_contract_witness :
    0 < animPopover.tracker.duration ∧
    ((animPopover.firstFrameSkipped = false →
      gtk_progress_tracker_after animPopover.tracker = false →
      (show_animate_cb animPopover 75000).tracker = animPopover.tracker) ∧
    (animPopover.state = PopoverState.showing → animPopover.visible = true →
      (show_animate_cb animPopover 75000).opacity =
        gtk_progress_tracker_get_ease_out_cubic
          (show_animate_cb animPopover 75000).tracker ∧
      (show_animate_cb animPopover 75000).transitionDiff =
        truncToInt ((TRANSITION_DIFF : ℚ) *
          (1 - gtk_progress_tracker_get_ease_out_cubic
            (show_animate_cb animPopover 75000).tracker))) ∧
    (animPopover.state = PopoverState.hiding →
      gtk_progress_tracker_after
        (if animPopover.firstFrameSkipped then
          gtk_progress_tracker_advance_frame animPopover.tracker 75000
        else animPopover.tracker) = false →
      (show_animate_cb animPopover 75000).opacity =
        1 - gtk_progress_tracker_get_ease_out_cubic
          (show_animate_cb animPopover 75000).tracker ∧
      (show_animate_cb animPopover 75000).transitionDiff =
        -truncToInt ((TRANSITION_DIFF : ℚ) *
          gtk_progress_tracker_get_ease_out_cubic
            (show_animate_cb animPopover 75000).tracker)) ∧
    (animPopover.state = PopoverState.showing → animPopover.visible = true →
      gtk_progress_tracker_get_ease_out_cubic animPopover.tracker ≤
        gtk_progress_tracker_get_ease_out_cubic
          (show_animate_cb animPopover 75000).tracker) ∧
    (animPopover.state = PopoverState.showing → animPopover.visible = true →
      (show_animate_cb animPopover 75000).state = PopoverState.showing →
      (show_animate_cb animPopover 75000).opacity ≤
        (show_animate_cb (show_animate_cb animPopover 75000)
          150000).opacity) ∧
    (animPopover.state = PopoverState.showing → animPopover.visible = true →
      ((show_animate_cb animPopover 75000).state = PopoverState.shown ↔
        gtk_progress_tracker_after
          (show_animate_cb animPopover 75000).tracker = true)) ∧
    (gtk_progress_tracker_after
        (show_animate_cb animPopover 75000).tracker = true →
      0 < (show_animate_cb animPopover 75000).tracker.duration →
      gtk_progress_tracker_get_ease_out_cubic
        (show_animate_cb animPopover 75000).tracker = 1)) :=
  ⟨by norm_num [animPopover],
    show_animate_contract animPopover 75000 150000 (by norm_num [animPopover])⟩

theorem show_animate_showing_step (p : GtkPopover) (now : ℚ)
    (hst : p.state = PopoverState.showing) (hv : p.visible = true)
    (hw : p.widgetVisible = true) :
    show_animate_cb p now =
      (if gtk_progress_tracker_after
          (if p.firstFrameSkipped then
            gtk_progress_tracker_advance_frame p.tracker now
          else p.tracker) then
        { p with
          firstFrameSkipped := true,
          tracker := (if p.firstFrameSkipped then
            gtk_progress_tracker_advance_frame p.tracker now
          else p.tracker),
          opacity := gtk_progress_tracker_get_ease_out_cubic
            (if p.firstFrameSkipped then
              gtk_progress_tracker_advance_frame p.tracker now
            else p.tracker),
          transitionDiff := truncToInt ((TRANSITION_DIFF : ℚ) -
            TRANSITION_DIFF * gtk_progress_tracker_get_ease_out_cubic
              (if p.firstFrameSkipped then
                gtk_progress_tracker_advance_frame p.tracker now
              else p.tracker)),
          state := PopoverState.shown,
          tickActive := false }
      else
        { p with
          firstFrameSkipped := true,
          tracker := (if p.firstFrameSkipped then
            gtk_progress_tracker_advance_frame p.tracker now
          else p.tracker),
          opacity := gtk_progress_tracker_get_ease_out_cubic
            (if p.firstFrameSkipped then
              gtk_progress_tracker_advance_frame p.tracker now
            else p.tracker),
          transitionDiff := truncToInt ((TRANSITION_DIFF : ℚ) -
            TRANSITION_DIFF * gtk_progress_tracker_get_ease_out_cubic
              (if p.firstFrameSkipped then
                gtk_progress_tracker_advance_frame p.tracker now
              else p.tracker)) }) := by
  cases hff : p.firstFrameSkipped <;>
    cases htick : p.tickActive <;>
    simp [show_animate_cb, gtk_popover_set_state, gtk_widget_set_visible,
      gtk_widget_show, gtk_widget_hide, gtk_popover_show_handler,
      gtk_popover_hide_handler, gtk_popover_hide_internal,
      gtk_popover_apply_modality, gtk_popover_start_transition,
      gtk_popover_stop_transition, hst, hv, hw, hff, htick]

theorem show_animate_hiding_step (p : GtkPopover) (now : ℚ)
    (hst : p.state = PopoverState.hiding) (hv : p.visible = false)
    (hw : p.widgetVisible = true) :
    show_animate_cb p now =
      (if gtk_progress_tracker_after
          (if p.firstFrameSkipped then
            gtk_progress_tracker_advance_frame p.tracker now
          else p.tracker) then
        { p with
          firstFrameSkipped := true,
          tracker := gtk_progress_tracker_finish
            (if p.firstFrameSkipped then
              gtk_progress_tracker_advance_frame p.tracker now
            else p.tracker),
          opacity := 1,
          transitionDiff := 0,
          state := PopoverState.hidden,
          tickActive := false,
          widgetVisible := false }
      else
        { p with
          firstFrameSkipped := true,
          tracker := (if p.firstFrameSkipped then
            gtk_progress_tracker_advance_frame p.tracker now
          else p.tracker),
          opacity := 1 - gtk_progress_tracker_get_ease_out_cubic
            (if p.firstFrameSkipped then
              gtk_progress_tracker_advance_frame p.tracker now
            else p.tracker),
          transitionDiff := truncToInt (-(TRANSITION_DIFF : ℚ) *
            gtk_progress_tracker_get_ease_out_cubic
              (if p.firstFrameSkipped then
                gtk_progress_tracker_advance_frame p.tracker now
              else p.tracker)) }) := by
  cases hff : p.firstFrameSkipped <;>
    cases htick : p.tickActive <;>
    simp [show_animate_cb, gtk_popover_set_state, gtk_widget_set_visible,
      gtk_widget_show, gtk_widget_hide, gtk_popover_show_handler,
      gtk_popover_hide_handler, gtk_popover_hide_internal,
      gtk_popover_apply_modality, gtk_popover_start_transition,
      gtk_popover_stop_transition, hst, hv, hw, hff, htick]

theorem phase1_tick (c : ℕ) (p : GtkPopover) (now : ℚ)
    (h : phase1Inv c p) : phase1Inv c (frame_tick p now) := by
  rcases h with hS | hD
  · obtain ⟨h1, h2, h3, h4, h5, h6, h7⟩ := hS
    unfold frame_tick
    rw [if_pos h4, show_animate_showing_step p now h1 h2 h3]
    cases hff : p.firstFrameSkipped <;>
      simp only [hff, Bool.false_eq_true, reduceIte] <;>
      split_ifs with ha <;>
      first
        | exact Or.inr ⟨rfl, h2, h3, rfl, h5, h6, h7, ha⟩
        | exact Or.inl ⟨h1, h2, h3, h4, h5, h6, h7⟩
  · obtain ⟨h1, h2, h3, h4, h5, h6, h7, h8⟩ := hD
    unfold frame_tick
    rw [if_neg (by simp [h4])]
    exact Or.inr ⟨h1, h2, h3, h4, h5, h6, h7, h8⟩

theorem phase2_tick (c : ℕ) (p : GtkPopover) (now : ℚ)
    (h : phase2Inv c p) : phase2Inv c (frame_tick p now) := by
  rcases h with hS | hD
  · obtain ⟨h1, h2, h3, h4, h5, h6, h7, h8⟩ := hS
    unfold frame_tick
    rw [if_pos h4, show_animate_hiding_step p now h1 h2 h3]
    cases hff : p.firstFrameSkipped <;>
      simp only [hff, Bool.false_eq_true, reduceIte] <;>
      split_ifs with ha <;>
      first
        | exact Or.inr ⟨rfl, h2, rfl, rfl, h5⟩
        | exact Or.inl ⟨h1, h2, h3, h4, h5, h6, h7, by simpa using ha⟩
  · obtain ⟨h1, h2, h3, h4, h5⟩ := hD
    unfold frame_tick
    rw [if_neg (by simp [h4])]
    exact Or.inr ⟨h1, h2, h3, h4, h5⟩

theorem phase1_run (c : ℕ) (ts : List ℚ) (p : GtkPopover)
    (h : phase1Inv c p) : phase1Inv c (run_ticks p ts) := by
  induction ts generalizing p with
  | nil => exact h
  | cons t ts ih => exact ih _ (phase1_tick c p t h)

theorem phase2_run (c : ℕ) (ts : List ℚ) (p : GtkPopover)
    (h : phase2Inv c p) : phase2Inv c (run_ticks p ts) := by
  induction ts generalizing p with
  | nil => exact h
  | cons t ts ih => exact ih _ (phase2_tick c p t h)

theorem popup_from_hidden (p : GtkPopover)
    (hst : p.state = PopoverState.hidden) (hv : p.visible = false)
    (hw : p.widgetVisible = false) (ht : p.tickActive = false)
    (hr : p.realized = true) (ha : p.animationsEnabled = true) :
    showingCore p.closedCount (gtk_popover_popup p) := by
  unfold showingCore
  cases hm : p.modal <;>
    simp [gtk_popover_popup, gtk_widget_show, gtk_popover_show_handler,
      gtk_popover_apply_modality, gtk_popover_set_state,
      gtk_popover_start_transition, gtk_popover_stop_transition,
      gtk_widget_set_visible, gtk_widget_hide,
      hst, hv, hw, ht, hr, ha, hm]

theorem popdown_from_showing (c : ℕ) (p : GtkPopover)
    (h : showingCore c p)
    (hna : gtk_progress_tracker_after p.tracker = false) :
    hidingCore (c + 1) (gtk_popover_popdown p) := by
  obtain ⟨h1, h2, h3, h4, h5, h6, h7⟩ := h
  unfold hidingCore
  cases hm : p.modal <;>
    simp [gtk_popover_popdown, gtk_popover_set_state,
      gtk_popover_start_transition, gtk_popover_stop_transition,
      gtk_widget_set_visible, gtk_widget_show, gtk_widget_hide,
      gtk_popover_show_handler, gtk_popover_hide_handler,
      gtk_popover_hide_internal, gtk_popover_apply_modality,
      h1, h2, h3, h4, h5, h6, h7, hm, hna]

/-- Claim C6: a popup followed by a popdown issued before the show
animation completes still drives the machine into HIDING and, once the hide
animation completes, HIDDEN — never stuck in SHOWING or SHOWN — and the
closed signal is emitted exactly once; popping down the already-hidden
popover emits nothing. -/
theorem popup_popdown_round_trip (p0 : GtkPopover) (ts1 ts2 : List ℚ)
    (hst : p0.state = PopoverState.hidden) (hv : p0.visible = false)
    (hw : p0.widgetVisible = false) (ht : p0.tickActive = false)
    (hr : p0.realized = true) (ha : p0.animationsEnabled = true)
    (hincomplete : gtk_progress_tracker_after
      (run_ticks (gtk_popover_popup p0) ts1).tracker = false) :
    (gtk_popover_popdown (run_ticks (gtk_popover_popup p0) ts1)).state =
      PopoverState.hiding ∧
    (gtk_popover_popdown
      (run_ticks (gtk_popover_popup p0) ts1)).closedCount =
      p0.closedCount + 1 ∧
    (run_ticks (gtk_popover_popdown (run_ticks (gtk_popover_popup p0) ts1))
        ts2).closedCount = p0.closedCount + 1 ∧
    ((run_ticks (gtk_popover_popdown (run_ticks (gtk_popover_popup p0) ts1))
        ts2).state = PopoverState.hiding ∨
      (run_ticks (gtk_popover_popdown (run_ticks (gtk_popover_popup p0) ts1))
        ts2).state = PopoverState.hidden) ∧
    (gtk_progress_tracker_after
        (run_ticks (gtk_popover_popdown
          (run_ticks (gtk_popover_popup p0) ts1)) ts2).tracker = true →
      (run_ticks (gtk_popover_popdown (run_ticks (gtk_popover_popup p0) ts1))
        ts2).state = PopoverState.hidden ∧
      (run_ticks (gtk_popover_popdown (run_ticks (gtk_popover_popup p0) ts1))
        ts2).visible = false ∧
      (run_ticks (gtk_popover_popdown (run_ticks (gtk_popover_popup p0) ts1))
        ts2).widgetVisible = false) ∧
    gtk_popover_popdown
      (run_ticks (gtk_popover_popdown (run_ticks (gtk_popover_popup p0) ts1))
        ts2) =
      run_ticks (gtk_popover_popdown (run_ticks (gtk_popover_popup p0) ts1))
        ts2 := by
  have h1 : phase1Inv p0.closedCount (run_ticks (gtk_popover_popup p0) ts1) :=
    phase1_run p0.closedCount ts1 _
      (Or.inl (popup_from_hidden p0 hst hv hw ht hr ha))
  have hS : showingCore p0.closedCount
      (run_ticks (gtk_popover_popup p0) ts1) := by
    rcases h1 with h | h
    · exact h
    · exact absurd h.2.2.2.2.2.2.2 (by simp [hincomplete])
  have h2 : hidingCore (p0.closedCount + 1)
      (gtk_popover_popdown (run_ticks (gtk_popover_popup p0) ts1)) :=
    popdown_from_showing p0.closedCount _ hS hincomplete
  have h3 : phase2Inv (p0.closedCount + 1)
      (run_ticks (gtk_popover_popdown
        (run_ticks (gtk_popover_popup p0) ts1)) ts2) :=
    phase2_run (p0.closedCount + 1) ts2 _ (Or.inl h2)
  refine ⟨h2.1, h2.2.2.2.2.1, ?_, ?_, ?_, ?_⟩
  · rcases h3 with h | h
    · exact h.2.2.2.2.1
    · exact h.2.2.2.2
  · rcases h3 with h | h
    · exact Or.inl h.1
    · exact Or.inr h.1
  · intro hafter
    rcases h3 with h | h
    · exact absurd hafter (by simp [h.2.2.2.2.2.2.2])
    · exact ⟨h.1, h.2.1, h.2.2.1⟩
  · have hnoop : ∀ q : GtkPopover,
        q.state = PopoverState.hiding ∨ q.state = PopoverState.hidden →
        gtk_popover_popdown q = q := by
      intro q hq
      unfold gtk_popover_popdown
      rw [if_pos hq]
    rcases h3 with h | h
    · exact hnoop _ (Or.inl h.1)
    · exact hnoop _ (Or.inr h.1)

/-- Witness for C6: popup, popdown immediately (no tick in between), then
three hide-animation ticks of which the last completes the transition. -/
theorem popup_popdown_round_trip_witness :
    (gtk_popover_popdown
      (run_ticks (gtk_popover_popup roundTripPopover) [])).state =
      PopoverState.hiding ∧
    (gtk_popover_popdown
      (run_ticks (gtk_popover_popup roundTripPopover) [])).closedCount =
      roundTripPopover.closedCount + 1 ∧
    (run_ticks (gtk_popover_popdown
        (run_ticks (gtk_popover_popup roundTripPopover) []))
        [1000, 2000, 160000]).closedCount =
      roundTripPopover.closedCount + 1 ∧
    ((run_ticks (gtk_popover_popdown
        (run_ticks (gtk_popover_popup roundTripPopover) []))
        [1000, 2000, 160000]).state = PopoverState.hiding ∨
      (run_ticks (gtk_popover_popdown
        (run_ticks (gtk_popover_popup roundTripPopover) []))
        [1000, 2000, 160000]).state = PopoverState.hidden) ∧
    (gtk_progress_tracker_after
        (run_ticks (gtk_popover_popdown
          (run_ticks (gtk_popover_popup roundTripPopover) []))
          [1000, 2000, 160000]).tracker = true →
      (run_ticks (gtk_popover_popdown
        (run_ticks (gtk_popover_popup roundTripPopover) []))
        [1000, 2000, 160000]).state = PopoverState.hidden ∧
      (run_ticks (gtk_popover_popdown
        (run_ticks (gtk_popover_popup roundTripPopover) []))
        [1000, 2000, 160000]).visible = false ∧
      (run_ticks (gtk_popover_popdown
        (run_ticks (gtk_popover_popup roundTripPopover) []))
        [1000, 2000, 160000]).widgetVisible = false) ∧
    gtk_popover_popdown
      (run_ticks (gtk_popover_popdown
        (run_ticks (gtk_popover_popup roundTripPopover) []))
        [1000, 2000, 160000]) =
      run_ticks (gtk_popover_popdown
        (run_ticks (gtk_popover_popup roundTripPopover) []))
        [1000, 2000, 160000] :=
  popup_popdown_round_trip roundTripPopover [] [1000, 2000, 160000]
    rfl rfl rfl rfl rfl rfl
    (by
      norm_num [run_ticks, gtk_popover_popup, gtk_widget_show,
        gtk_popover_show_handler, gtk_popover_apply_modality,
        gtk_popover_set_state, gtk_popover_start_transition,
        gtk_popover_stop_transition, gtk_widget_set_visible,
        gtk_widget_hide, gtk_progress_tracker_start,
        gtk_progress_tracker_after, TRANSITION_DURATION, roundTripPopover]
      split_ifs <;> norm_num)
